import Mathlib

/-!
Verification of the coupon-management selection engine.

Shallow embedding of the JavaScript sources:
- `src/models/coupon.js` (the `Coupon` constructor with its normalization,
  and the `/coupons` route module: in-memory catalog, usage tracking and the
  `POST /coupons/best` selection pipeline),
- `src/services/couponService.js` (`CouponService.filterActiveCoupons`,
  `CouponService.findBestCoupon`, and `EligibilityService`),
- `src/services/discountService.js` (`DiscountService.calculateDiscount`).

Modelling conventions: JavaScript numbers are embedded as `ℚ`; date strings
are embedded as their parsed epoch-millisecond instants (`ℤ`), which is the
form in which the source compares them (`new Date(...)` / `getTime()`);
optional or nullable fields are `Option`; JavaScript `Map` objects are
association lists with `Map.set` update-or-append semantics, preserving
insertion order exactly as `Map` iteration does.
-/

/-- Cart line item (`cart.items[i]` in the source): productId, category,
unitPrice, quantity. -/
structure CartItem where
  productId : String
  category : String
  unitPrice : ℚ
  quantity : ℚ
deriving DecidableEq, Repr

/-- A cart is its ordered list of line items (`cart.items`). -/
structure Cart where
  items : List CartItem
deriving DecidableEq, Repr

/-- User context (`userContext` in the source). -/
structure UserContext where
  userId : String
  userTier : String
  country : String
  lifetimeSpend : ℚ
  ordersPlaced : ℚ
deriving DecidableEq, Repr

/-- Eligibility rule set. Every field is optional; an absent (`none`) field
imposes no restriction, mirroring the per-field `undefined`/`null` checks in
`eligibilityService.js`. `firstOrderOnly` is checked in the source with
`=== true`, so a `Bool` with default `false` is faithful. -/
structure Eligibility where
  allowedUserTiers : Option (List String) := none
  minLifetimeSpend : Option ℚ := none
  minOrdersPlaced : Option ℚ := none
  firstOrderOnly : Bool := false
  allowedCountries : Option (List String) := none
  minCartValue : Option ℚ := none
  applicableCategories : Option (List String) := none
  excludedCategories : Option (List String) := none
  minItemsCount : Option ℚ := none
deriving DecidableEq, Repr

/-- A stored coupon record, as produced by the `Coupon` constructor in
`src/models/coupon.js`. `startDate` and `endDate` are the parsed instants. -/
structure Coupon where
  code : String
  description : String
  discountType : String
  discountValue : ℚ
  maxDiscountAmount : Option ℚ
  startDate : ℤ
  endDate : ℤ
  usageLimitPerUser : Option ℚ
  eligibility : Eligibility
deriving DecidableEq, Repr

/-- Raw input data for the `Coupon` constructor (`data` in
`new Coupon(data)`), before the constructor applies its `|| null`
coercions and category normalization. -/
structure CouponData where
  code : String
  description : String
  discountType : String
  discountValue : ℚ
  maxDiscountAmount : Option ℚ := none
  startDate : ℤ
  endDate : ℤ
  usageLimitPerUser : Option ℚ := none
  eligibility : Eligibility := {}
deriving DecidableEq, Repr

/-- Model of `String.prototype.toLowerCase()` on the ASCII category and code
alphabets: lowercase every character. (Identical to `String.toLower`, coded
on the underlying character list so that concrete runs reduce in the kernel.) -/
def jsToLowerCase (s : String) : String :=
  String.mk (s.data.map Char.toLower)

/-- Strict byte/codepoint lexicographic order on character lists. -/
def codepointLtB : List Char → List Char → Bool
  | [], [] => false
  | [], _ :: _ => true
  | _ :: _, [] => false
  | c :: cs, d :: ds =>
    if c.toNat < d.toNat then true
    else if d.toNat < c.toNat then false
    else codepointLtB cs ds

/-- Strict byte/codepoint lexicographic order on strings (for ASCII coupon
codes, byte order and codepoint order coincide). This is the order the
specification names for the code tie-break. -/
def codepointLt (a b : String) : Bool :=
  codepointLtB a.data b.data

/-- JavaScript `x || null` on an optional number: `null`/`undefined` and the
falsy number `0` all collapse to `null`. -/
def jsOrNull (x : Option ℚ) : Option ℚ :=
  match x with
  | none => none
  | some v => if v = 0 then none else some v

/-- `Coupon.normalizeEligibility`: lowercase both category lists, once, at
construction time. All other fields are copied unchanged (`{ ...eligibility }`). -/
def normalizeEligibility (eligibility : Eligibility) : Eligibility :=
  { eligibility with
    applicableCategories :=
      eligibility.applicableCategories.map fun cats => cats.map jsToLowerCase
    excludedCategories :=
      eligibility.excludedCategories.map fun cats => cats.map jsToLowerCase }

/-- The `Coupon` constructor: field copies, `maxDiscountAmount || null`,
`usageLimitPerUser || null`, and eligibility normalization. -/
def mkCoupon (data : CouponData) : Coupon :=
  { code := data.code
    description := data.description
    discountType := data.discountType
    discountValue := data.discountValue
    maxDiscountAmount := jsOrNull data.maxDiscountAmount
    startDate := data.startDate
    endDate := data.endDate
    usageLimitPerUser := jsOrNull data.usageLimitPerUser
    eligibility := normalizeEligibility data.eligibility }

/-- Cart value: `items.reduce((sum, item) => sum + item.unitPrice * item.quantity, 0)`.
This expression appears verbatim in `DiscountService.calculateDiscount`,
`DiscountService.getCartValue` and `EligibilityService.checkCartEligibility`. -/
def cartValue (cart : Cart) : ℚ :=
  cart.items.foldl (fun sum item => sum + item.unitPrice * item.quantity) 0

/-- Total item quantity: `items.reduce((sum, item) => sum + item.quantity, 0)`
from the `minItemsCount` check. -/
def itemCount (cart : Cart) : ℚ :=
  cart.items.foldl (fun sum item => sum + item.quantity) 0

/-- `DiscountService.calculateDiscount(coupon, cart)`: FLAT takes the raw
magnitude, PERCENT takes `cartValue * discountValue / 100` capped by
`maxDiscountAmount` when present, any other type leaves the initial 0;
finally the result is clamped by `Math.min(discount, cartValue)`. -/
def calculateDiscount (coupon : Coupon) (cart : Cart) : ℚ :=
  let cv := cartValue cart
  let discount :=
    if coupon.discountType = "FLAT" then
      coupon.discountValue
    else if coupon.discountType = "PERCENT" then
      let raw := cv * coupon.discountValue / 100
      match coupon.maxDiscountAmount with
      | some cap => min raw cap
      | none => raw
    else 0
  min discount cv

/-- `EligibilityService.checkUserEligibility`: the five user-side checks, in
source order, each active only when its rule field is present; a failing
check returns `false`. -/
def checkUserEligibility (eligibility : Eligibility) (userContext : UserContext) : Bool :=
  (match eligibility.allowedUserTiers with
    | some allowed => allowed.contains userContext.userTier
    | none => true) &&
  (match eligibility.minLifetimeSpend with
    | some minSpend => !decide (userContext.lifetimeSpend < minSpend)
    | none => true) &&
  (match eligibility.minOrdersPlaced with
    | some minOrders => !decide (userContext.ordersPlaced < minOrders)
    | none => true) &&
  (if eligibility.firstOrderOnly then !decide (0 < userContext.ordersPlaced) else true) &&
  (match eligibility.allowedCountries with
    | some allowed => allowed.contains userContext.country
    | none => true)

/-- The category-membership test shared by the `applicableCategories` and
`excludedCategories` checks: lowercase every cart item category and ask
whether some lowercased category is contained in the (already-lowercased)
coupon list. -/
def categoryHit (categories : List String) (items : List CartItem) : Bool :=
  (items.map fun item => jsToLowerCase item.category).any fun category =>
    categories.contains category

/-- `EligibilityService.checkCartEligibility`: the four cart-side checks in
source order. -/
def checkCartEligibility (eligibility : Eligibility) (cart : Cart) : Bool :=
  (match eligibility.minCartValue with
    | some minValue => !decide (cartValue cart < minValue)
    | none => true) &&
  (match eligibility.applicableCategories with
    | some cats => categoryHit cats cart.items
    | none => true) &&
  (match eligibility.excludedCategories with
    | some cats => !categoryHit cats cart.items
    | none => true) &&
  (match eligibility.minItemsCount with
    | some minItems => !decide (itemCount cart < minItems)
    | none => true)

/-- `EligibilityService.checkEligibility`: user-side checks, then cart-side
checks, both must pass. -/
def checkEligibility (coupon : Coupon) (userContext : UserContext) (cart : Cart) : Bool :=
  checkUserEligibility coupon.eligibility userContext &&
  checkCartEligibility coupon.eligibility cart

/-- Three-way comparison by `<`, the sign semantics of a JavaScript numeric
comparator return value. -/
def threeWay {α : Type} [LinearOrder α] (a b : α) : Ordering :=
  if a < b then Ordering.lt else if b < a then Ordering.gt else Ordering.eq

/-- Lexicographic three-way comparison of weight lists. -/
def lexCompare : List ℕ → List ℕ → Ordering
  | [], [] => Ordering.eq
  | [], _ :: _ => Ordering.lt
  | _ :: _, [] => Ordering.gt
  | x :: xs, y :: ys =>
    if x < y then Ordering.lt
    else if y < x then Ordering.gt
    else lexCompare xs ys

/-- Primary collation weight of a character under the ICU root/default
collation used by `String.prototype.localeCompare` in Node, restricted to
the ASCII alphabet of coupon codes: the underscore (punctuation) sorts
before digits, digits before letters, and letters case-insensitively;
remaining characters are ordered by codepoint after the letters. -/
def icuPrimary (c : Char) : ℕ :=
  if c = '_' then 0
  else if c.isDigit then 1 + (c.toNat - 48)
  else if c.isAlpha then 20 + (c.toLower.toNat - 97)
  else 1000 + c.toNat

/-- Tertiary (case) collation weight: lowercase before uppercase on a
primary tie, as in the ICU root collation. -/
def icuTertiary (c : Char) : ℕ :=
  if c.isUpper then 1 else 0

/-- Model of `a.localeCompare(b)` (sign only): compare primary weight
sequences lexicographically, breaking a full primary tie by the tertiary
(case) weights. This is the Node/ICU default-locale collation on the
ASCII coupon-code alphabet; it is NOT raw codepoint order. -/
def localeCompare (a b : String) : Ordering :=
  match lexCompare (a.data.map icuPrimary) (b.data.map icuPrimary) with
  | Ordering.eq => lexCompare (a.data.map icuTertiary) (b.data.map icuTertiary)
  | o => o

/-- The sort comparator shared verbatim by `CouponService.findBestCoupon`
and the `POST /coupons/best` route: highest discount first
(`b.discount - a.discount`), then earliest end instant
(`endDateA.getTime() - endDateB.getTime()`), then
`a.coupon.code.localeCompare(b.coupon.code)`. -/
def couponCmp (a b : Coupon × ℚ) : Ordering :=
  if a.2 ≠ b.2 then threeWay b.2 a.2
  else if a.1.endDate ≠ b.1.endDate then threeWay a.1.endDate b.1.endDate
  else localeCompare a.1.code b.1.code

/-- The non-strict order induced by the comparator: `a` need not come after
`b`. A stable comparison sort (JavaScript `Array.prototype.sort`) sorted by
`couponCmp` is exactly a stable sort by this relation. -/
def couponLe (a b : Coupon × ℚ) : Prop :=
  couponCmp a b ≠ Ordering.gt

instance : DecidableRel couponLe := fun a b =>
  inferInstanceAs (Decidable (couponCmp a b ≠ Ordering.gt))

/-- `CouponService.filterActiveCoupons(coupons, userContext)`: keep coupons
whose window contains `now`; inside the date-true branch the source tests
`usageLimitPerUser !== null && !== undefined` but the branch body is empty
(a comment only), so the test decides nothing. -/
def filterActiveCoupons (coupons : List Coupon) (userContext : UserContext) (now : ℤ) :
    List Coupon :=
  coupons.filter fun coupon =>
    if decide (coupon.startDate ≤ now) && decide (now ≤ coupon.endDate) then
      match coupon.usageLimitPerUser with
      | some _ => true
      | none => true
    else false

/-- The coupons surviving the date filter and the eligibility filter in
`CouponService.findBestCoupon` (steps 1 and 2). -/
def survivingCoupons (coupons : List Coupon) (userContext : UserContext) (cart : Cart)
    (now : ℤ) : List Coupon :=
  (filterActiveCoupons coupons userContext now).filter fun coupon =>
    checkEligibility coupon userContext cart

/-- `CouponService.findBestCoupon`: filter, compute discounts, sort with the
shared comparator, take element 0; `null` when nothing survives. -/
def findBestCoupon (coupons : List Coupon) (userContext : UserContext) (cart : Cart)
    (now : ℤ) : Option (Coupon × ℚ) :=
  let eligibleCoupons := survivingCoupons coupons userContext cart now
  if eligibleCoupons.isEmpty then none
  else
    let couponsWithDiscounts :=
      eligibleCoupons.map fun coupon => (coupon, calculateDiscount coupon cart)
    (couponsWithDiscounts.insertionSort couponLe).head?

/-- The usage store `userUsage : Map<userId, Map<couponCode, count>>`, as an
insertion-ordered association list of association lists. -/
abbrev UsageMap := List (String × List (String × ℚ))

/-- JavaScript `Map.set(k, v)`: overwrite in place when the key is present,
append otherwise. -/
def assocSet {β : Type} (k : String) (v : β) : List (String × β) → List (String × β)
  | [] => [(k, v)]
  | (k2, v2) :: rest => if k2 = k then (k, v) :: rest else (k2, v2) :: assocSet k v rest

/-- `usageCount(userId, code)`: `(userUsage.get(userId) || new Map()).get(code) || 0`,
the lookup pattern used by the `POST /coupons/best` usage filter. -/
def usageCount (userUsage : UsageMap) (userId couponCode : String) : ℚ :=
  (((userUsage.lookup userId).getD []).lookup couponCode).getD 0

/-- `incrementUsage(userId, couponCode)` from the routes module: create the
per-user map when absent, then store `(current || 0) + 1` under the code. -/
def incrementUsage (userId couponCode : String) (userUsage : UsageMap) : UsageMap :=
  let userCouponUsage := (userUsage.lookup userId).getD []
  let currentCount := (userCouponUsage.lookup couponCode).getD 0
  assocSet userId (assocSet couponCode (currentCount + 1) userCouponUsage) userUsage

/-- The per-coupon predicate of the `POST /coupons/best` date-and-usage loop:
in the validity window, and — only when a usage limit is present — the
current usage count has not reached the limit (`usageCount >= limit` skips). -/
def activeFilter (userUsage : UsageMap) (userContext : UserContext) (now : ℤ)
    (coupon : Coupon) : Bool :=
  decide (coupon.startDate ≤ now) && decide (now ≤ coupon.endDate) &&
    match coupon.usageLimitPerUser with
    | some limit =>
        !decide (limit ≤ usageCount userUsage userContext.userId coupon.code)
    | none => true

/-- The coupons surviving all three `POST /coupons/best` filters (validity,
usage, eligibility). -/
def routeSurvivors (coupons : List Coupon) (userContext : UserContext) (cart : Cart)
    (now : ℤ) (userUsage : UsageMap) : List Coupon :=
  (coupons.filter (activeFilter userUsage userContext now)).filter fun coupon =>
    checkEligibility coupon userContext cart

/-- Response of the selection engine: `{ coupon: Coupon | null, discount }`. -/
structure SelectResult where
  coupon : Option Coupon
  discount : ℚ
deriving DecidableEq, Repr

/-- The `POST /coupons/best` handler body (its business logic, after input
validation): filter the catalog, return `(null, 0)` when nothing survives,
otherwise sort by the shared comparator, answer with element 0 and commit
one usage increment for `(userId, best.code)`. The catalog is returned
unchanged — the handler never writes the `coupons` map. -/
def selectBest (coupons : List Coupon) (userContext : UserContext) (cart : Cart)
    (now : ℤ) (userUsage : UsageMap) : SelectResult × List Coupon × UsageMap :=
  let eligibleCoupons := routeSurvivors coupons userContext cart now userUsage
  if eligibleCoupons.isEmpty then
    ({ coupon := none, discount := 0 }, coupons, userUsage)
  else
    match (eligibleCoupons.map fun coupon =>
        (coupon, calculateDiscount coupon cart)).insertionSort couponLe with
    | [] => ({ coupon := none, discount := 0 }, coupons, userUsage)
    | best :: _ =>
      ({ coupon := some best.1, discount := best.2 }, coupons,
        incrementUsage userContext.userId best.1.code userUsage)

def cx2Data : CouponData :=
  { code := "LIMIT0", description := "limit zero", discountType := "FLAT",
    discountValue := 50, startDate := 0, endDate := 100, usageLimitPerUser := some 0 }

def cx2Usage : UsageMap := [("u1", [("LIMIT0", 5)])]

def cx2User : UserContext :=
  { userId := "u1", userTier := "NEW", country := "IN", lifetimeSpend := 0,
    ordersPlaced := 0 }

/-- Widening relation on an optional allow-set: the new rule set may drop
the restriction or replace the list by a superset; it may not introduce a
restriction where none was. -/
def widerSet (o o2 : Option (List String)) : Prop :=
  match o, o2 with
  | _, none => True
  | some s, some t => ∀ x ∈ s, x ∈ t
  | none, some _ => False

/-- Lowering relation on an optional minimum threshold: the new rule set may
drop the restriction or lower the bound; it may not introduce one. -/
def lowerMin (o o2 : Option ℚ) : Prop :=
  match o, o2 with
  | _, none => True
  | some t, some t2 => t2 ≤ t
  | none, some _ => False

/-- The second rule set widens every allow-set and lowers every minimum
threshold of the first, leaving `firstOrderOnly` and `excludedCategories`
unchanged (the claim quantifies only over allow-sets and thresholds). -/
def relaxedEligibility (e e2 : Eligibility) : Prop :=
  widerSet e.allowedUserTiers e2.allowedUserTiers ∧
  lowerMin e.minLifetimeSpend e2.minLifetimeSpend ∧
  lowerMin e.minOrdersPlaced e2.minOrdersPlaced ∧
  e2.firstOrderOnly = e.firstOrderOnly ∧
  widerSet e.allowedCountries e2.allowedCountries ∧
  lowerMin e.minCartValue e2.minCartValue ∧
  widerSet e.applicableCategories e2.applicableCategories ∧
  e2.excludedCategories = e.excludedCategories ∧
  lowerMin e.minItemsCount e2.minItemsCount

/-- The membership test a present allow-set performs (absent passes). -/
def optContains (o : Option (List String)) (a : String) : Bool :=
  match o with
  | some allowed => allowed.contains a
  | none => true

/-- The threshold test a present minimum performs (absent passes). -/
def optMinPass (o : Option ℚ) (v : ℚ) : Bool :=
  match o with
  | some m => !decide (v < m)
  | none => true

/-- The category test a present category list performs (absent passes). -/
def optCategoryHit (o : Option (List String)) (items : List CartItem) : Bool :=
  match o with
  | some cats => categoryHit cats items
  | none => true

def cx1CouponA : Coupon :=
  { code := "a", description := "lower a", discountType := "FLAT", discountValue := 100,
    maxDiscountAmount := none, startDate := 0, endDate := 100,
    usageLimitPerUser := none, eligibility := {} }

def cx1CouponB : Coupon := { cx1CouponA with code := "B", description := "upper B" }

def cx1User : UserContext :=
  { userId := "u1", userTier := "NEW", country := "IN", lifetimeSpend := 0,
    ordersPlaced := 0 }

def cx1Cart : Cart :=
  { items := [{ productId := "p1", category := "misc", unitPrice := 1000, quantity := 1 }] }

def w2Coupon : Coupon :=
  { code := "W2", description := "limited", discountType := "FLAT", discountValue := 10,
    maxDiscountAmount := none, startDate := 0, endDate := 100,
    usageLimitPerUser := some 2, eligibility := {} }

def w2Usage : UsageMap := [("u2", [("W2", 1)])]

def w2User : UserContext :=
  { userId := "u2", userTier := "NEW", country := "IN", lifetimeSpend := 0,
    ordersPlaced := 0 }

def w3Coupon : Coupon :=
  { code := "W3", description := "flat hundred", discountType := "FLAT",
    discountValue := 100, maxDiscountAmount := none, startDate := 0, endDate := 100,
    usageLimitPerUser := none, eligibility := {} }

def w3Cart : Cart :=
  { items := [{ productId := "p3", category := "misc", unitPrice := 60, quantity := 1 }] }

def w4Coupon : Coupon :=
  { code := "W4", description := "twenty percent capped", discountType := "PERCENT",
    discountValue := 20, maxDiscountAmount := some 150, startDate := 0, endDate := 100,
    usageLimitPerUser := none, eligibility := {} }

def w4Cart : Cart :=
  { items := [{ productId := "p4", category := "misc", unitPrice := 2000, quantity := 1 }] }

def w5Coupon : Coupon :=
  { code := "W5", description := "expired", discountType := "FLAT", discountValue := 10,
    maxDiscountAmount := none, startDate := 0, endDate := 40,
    usageLimitPerUser := none, eligibility := {} }

def w5User : UserContext :=
  { userId := "u5", userTier := "NEW", country := "IN", lifetimeSpend := 0,
    ordersPlaced := 0 }

def w5Usage : UsageMap := [("u5", [("W5", 3)])]

def w6Coupon : Coupon :=
  { code := "W6", description := "winner", discountType := "FLAT", discountValue := 10,
    maxDiscountAmount := none, startDate := 0, endDate := 100,
    usageLimitPerUser := none, eligibility := {} }

def w6User : UserContext :=
  { userId := "u6", userTier := "NEW", country := "IN", lifetimeSpend := 0,
    ordersPlaced := 0 }

def w7CouponA : Coupon :=
  { code := "W7A", description := "strict rules", discountType := "FLAT",
    discountValue := 10, maxDiscountAmount := none, startDate := 0, endDate := 100,
    usageLimitPerUser := none,
    eligibility :=
      { allowedUserTiers := some ["NEW"], minLifetimeSpend := some 100,
        minCartValue := some 50, applicableCategories := some ["books"] } }

def w7CouponB : Coupon :=
  { code := "W7B", description := "relaxed rules", discountType := "FLAT",
    discountValue := 10, maxDiscountAmount := none, startDate := 0, endDate := 100,
    usageLimitPerUser := none,
    eligibility :=
      { allowedUserTiers := some ["NEW", "GOLD"], minLifetimeSpend := some 50,
        minCartValue := some 10, applicableCategories := some ["books", "toys"] } }

def w7User : UserContext :=
  { userId := "u7", userTier := "NEW", country := "IN", lifetimeSpend := 200,
    ordersPlaced := 1 }

def w7Cart : Cart :=
  { items := [{ productId := "p7", category := "books", unitPrice := 60, quantity := 1 }] }

def w8Data : CouponData :=
  { code := "W8", description := "category coupon", discountType := "FLAT",
    discountValue := 10, startDate := 0, endDate := 100,
    eligibility := { applicableCategories := some ["ELECTRONICS"] } }

def w8Items : List CartItem :=
  [{ productId := "p8", category := "electronics", unitPrice := 10, quantity := 1 }]

def w9CouponA : Coupon :=
  { code := "W9A", description := "in window", discountType := "FLAT", discountValue := 10,
    maxDiscountAmount := none, startDate := 0, endDate := 100,
    usageLimitPerUser := some 1, eligibility := {} }

def w9CouponB : Coupon :=
  { w9CouponA with code := "W9B", description := "expired", endDate := 40 }

def w9User : UserContext :=
  { userId := "u9", userTier := "NEW", country := "IN", lifetimeSpend := 0,
    ordersPlaced := 0 }

def w10Coupon : Coupon :=
  { code := "W10", description := "winner", discountType := "FLAT", discountValue := 10,
    maxDiscountAmount := none, startDate := 0, endDate := 100,
    usageLimitPerUser := none, eligibility := {} }

def w10User : UserContext :=
  { userId := "u10", userTier := "NEW", country := "IN", lifetimeSpend := 0,
    ordersPlaced := 0 }

def w10Usage : UsageMap := [("u11", [("W10", 4)])]

/-! ### Proof development -/

theorem ordering_ne_gt {o : Ordering} :
    o ≠ Ordering.gt ↔ o = Ordering.lt ∨ o = Ordering.eq := by
  cases o <;> simp

theorem threeWay_eq_gt {α : Type} [LinearOrder α] (a b : α) :
    threeWay a b = Ordering.gt ↔ b < a := by
  rcases lt_trichotomy a b with h | h | h
  · simp [threeWay, h, asymm h]
  · simp [threeWay, h, lt_irrefl]
  · simp [threeWay, asymm h, h]

theorem threeWay_eq_lt {α : Type} [LinearOrder α] (a b : α) :
    threeWay a b = Ordering.lt ↔ a < b := by
  rcases lt_trichotomy a b with h | h | h
  · simp [threeWay, h]
  · simp [threeWay, h, lt_irrefl]
  · simp [threeWay, asymm h, h]

theorem lexCompare_eq_eq : ∀ (xs ys : List ℕ), lexCompare xs ys = Ordering.eq ↔ xs = ys
  | [], [] => by simp [lexCompare]
  | [], _ :: _ => by simp [lexCompare]
  | _ :: _, [] => by simp [lexCompare]
  | x :: xs, y :: ys => by
    by_cases h1 : x < y
    · simp only [lexCompare, if_pos h1]
      constructor
      · intro h; cases h
      · rintro ⟨h, -⟩; omega
    · by_cases h2 : y < x
      · simp only [lexCompare, if_neg h1, if_pos h2]
        constructor
        · intro h; cases h
        · rintro ⟨h, -⟩; omega
      · have hxy : x = y := by omega
        simp [lexCompare, h1, h2, hxy, lexCompare_eq_eq xs ys]

theorem lexCompare_gt_iff : ∀ (xs ys : List ℕ),
    lexCompare xs ys = Ordering.gt ↔ lexCompare ys xs = Ordering.lt
  | [], [] => by simp [lexCompare]
  | [], _ :: _ => by simp [lexCompare]
  | _ :: _, [] => by simp [lexCompare]
  | x :: xs, y :: ys => by
    by_cases h1 : x < y
    · have h2 : ¬ y < x := by omega
      simp [lexCompare, h1, h2]
    · by_cases h2 : y < x
      · simp [lexCompare, h1, h2]
      · have hxy : x = y := by omega
        simp [lexCompare, h1, h2, lexCompare_gt_iff xs ys]

theorem lexCompare_lt_trans : ∀ (xs ys zs : List ℕ),
    lexCompare xs ys = Ordering.lt → lexCompare ys zs = Ordering.lt →
    lexCompare xs zs = Ordering.lt
  | [], [], _ => by simp [lexCompare]
  | [], _ :: _, [] => by simp [lexCompare]
  | [], _ :: _, _ :: _ => by simp [lexCompare]
  | _ :: _, [], _ => by simp [lexCompare]
  | _ :: _, _ :: _, [] => by simp [lexCompare]
  | x :: xs, y :: ys, z :: zs => by
    intro h1 h2
    by_cases hxy : x < y
    · by_cases hyz : y < z
      · simp [lexCompare, show x < z by omega]
      · have hzy : ¬ z < y := by
          intro hc
          simp [lexCompare, hyz, hc] at h2
        have : y = z := by omega
        simp [lexCompare, show x < z by omega]
    · have hyx : ¬ y < x := by
        intro hc
        simp [lexCompare, hxy, hc] at h1
      have hx : x = y := by omega
      simp only [lexCompare, if_neg hxy, if_neg hyx] at h1
      by_cases hyz : y < z
      · simp [lexCompare, show x < z by omega]
      · have hzy : ¬ z < y := by
          intro hc
          simp [lexCompare, hyz, hc] at h2
        have hy : y = z := by omega
        simp only [lexCompare, if_neg hyz, if_neg hzy] at h2
        have hxz : ¬ x < z := by omega
        have hzx : ¬ z < x := by omega
        simp [lexCompare, hxz, hzx, lexCompare_lt_trans xs ys zs h1 h2]

theorem lexCompare_le_trans (xs ys zs : List ℕ)
    (h1 : lexCompare xs ys ≠ Ordering.gt) (h2 : lexCompare ys zs ≠ Ordering.gt) :
    lexCompare xs zs ≠ Ordering.gt := by
  rw [ordering_ne_gt] at h1 h2 ⊢
  rcases h1 with h1 | h1
  · rcases h2 with h2 | h2
    · exact Or.inl (lexCompare_lt_trans xs ys zs h1 h2)
    · rw [lexCompare_eq_eq] at h2
      exact Or.inl (h2 ▸ h1)
  · rw [lexCompare_eq_eq] at h1
    rw [h1]
    exact h2

theorem localeCompare_ne_gt (a b : String) :
    localeCompare a b ≠ Ordering.gt ↔
      (lexCompare (a.data.map icuPrimary) (b.data.map icuPrimary) = Ordering.lt ∨
       (a.data.map icuPrimary = b.data.map icuPrimary ∧
        lexCompare (a.data.map icuTertiary) (b.data.map icuTertiary) ≠ Ordering.gt)) := by
  unfold localeCompare
  rcases h : lexCompare (a.data.map icuPrimary) (b.data.map icuPrimary)
  · simp
  · simp [(lexCompare_eq_eq _ _).mp h]
  · have hne : a.data.map icuPrimary ≠ b.data.map icuPrimary := by
      intro he
      rw [(lexCompare_eq_eq _ _).mpr he] at h
      cases h
    simp [hne]

theorem localeCompare_gt_iff (a b : String) :
    localeCompare a b = Ordering.gt ↔ localeCompare b a = Ordering.lt := by
  unfold localeCompare
  rcases h : lexCompare (a.data.map icuPrimary) (b.data.map icuPrimary)
  · have h2 : lexCompare (b.data.map icuPrimary) (a.data.map icuPrimary) = Ordering.gt :=
      (lexCompare_gt_iff _ _).mpr h
    simp [h2]
  · have he := (lexCompare_eq_eq _ _).mp h
    have h2 : lexCompare (b.data.map icuPrimary) (a.data.map icuPrimary) = Ordering.eq :=
      (lexCompare_eq_eq _ _).mpr he.symm
    simp [h2, lexCompare_gt_iff]
  · have h2 : lexCompare (b.data.map icuPrimary) (a.data.map icuPrimary) = Ordering.lt :=
      (lexCompare_gt_iff _ _).mp h
    simp [h2]

theorem localeCompare_le_trans (a b c : String)
    (h1 : localeCompare a b ≠ Ordering.gt) (h2 : localeCompare b c ≠ Ordering.gt) :
    localeCompare a c ≠ Ordering.gt := by
  rw [localeCompare_ne_gt] at h1 h2 ⊢
  rcases h1 with h1 | ⟨h1e, h1t⟩
  · rcases h2 with h2 | ⟨h2e, h2t⟩
    · exact Or.inl (lexCompare_lt_trans _ _ _ h1 h2)
    · exact Or.inl (h2e ▸ h1)
  · rcases h2 with h2 | ⟨h2e, h2t⟩
    · exact Or.inl (h1e ▸ h2)
    · exact Or.inr ⟨h1e.trans h2e, lexCompare_le_trans _ _ _ h1t h2t⟩

theorem localeCompare_refl (a : String) : localeCompare a a = Ordering.eq := by
  unfold localeCompare
  rw [(lexCompare_eq_eq _ _).mpr rfl, (lexCompare_eq_eq _ _).mpr rfl]

theorem couponCmp_ne_gt (a b : Coupon × ℚ) :
    couponCmp a b ≠ Ordering.gt ↔
      (b.2 < a.2 ∨ (a.2 = b.2 ∧ (a.1.endDate < b.1.endDate ∨
        (a.1.endDate = b.1.endDate ∧ localeCompare a.1.code b.1.code ≠ Ordering.gt)))) := by
  unfold couponCmp
  by_cases h1 : a.2 = b.2
  · by_cases h2 : a.1.endDate = b.1.endDate
    · simp [h1, h2, lt_irrefl]
    · rcases lt_trichotomy a.1.endDate b.1.endDate with h | h | h
      · simp [h1, h2, h, threeWay_eq_gt, asymm h, lt_irrefl]
      · exact absurd h h2
      · simp [h1, h2, threeWay_eq_gt, h, asymm h, lt_irrefl]
  · rcases lt_trichotomy a.2 b.2 with h | h | h
    · simp [h1, threeWay_eq_gt, h, asymm h]
    · exact absurd h h1
    · simp [h1, threeWay_eq_gt, h, asymm h]

theorem couponLe_refl (a : Coupon × ℚ) : couponLe a a := by
  unfold couponLe couponCmp
  simp [localeCompare_refl]

theorem couponLe_total (a b : Coupon × ℚ) : couponLe a b ∨ couponLe b a := by
  unfold couponLe
  rw [couponCmp_ne_gt, couponCmp_ne_gt]
  rcases lt_trichotomy a.2 b.2 with h | h | h
  · exact Or.inr (Or.inl h)
  · rcases lt_trichotomy a.1.endDate b.1.endDate with he | he | he
    · exact Or.inl (Or.inr ⟨h, Or.inl he⟩)
    · by_cases hc : localeCompare a.1.code b.1.code = Ordering.gt
      · refine Or.inr (Or.inr ⟨h.symm, Or.inr ⟨he.symm, ?_⟩⟩)
        rw [(localeCompare_gt_iff _ _).mp hc]
        simp
      · exact Or.inl (Or.inr ⟨h, Or.inr ⟨he, hc⟩⟩)
    · exact Or.inr (Or.inr ⟨h.symm, Or.inl he⟩)
  · exact Or.inl (Or.inl h)

theorem couponLe_trans (a b c : Coupon × ℚ)
    (h1 : couponLe a b) (h2 : couponLe b c) : couponLe a c := by
  unfold couponLe at h1 h2 ⊢
  rw [couponCmp_ne_gt] at h1 h2 ⊢
  rcases h1 with h1 | ⟨h1d, h1r⟩
  · rcases h2 with h2 | ⟨h2d, h2r⟩
    · exact Or.inl (h2.trans h1)
    · exact Or.inl (h2d ▸ h1)
  · rcases h2 with h2 | ⟨h2d, h2r⟩
    · exact Or.inl (h1d ▸ h2)
    · refine Or.inr ⟨h1d.trans h2d, ?_⟩
      rcases h1r with h1r | ⟨h1e, h1c⟩
      · rcases h2r with h2r | ⟨h2e, h2c⟩
        · exact Or.inl (h1r.trans h2r)
        · exact Or.inl (h2e ▸ h1r)
      · rcases h2r with h2r | ⟨h2e, h2c⟩
        · exact Or.inl (h1e ▸ h2r)
        · exact Or.inr ⟨h1e.trans h2e, localeCompare_le_trans _ _ _ h1c h2c⟩

instance : IsTotal (Coupon × ℚ) couponLe :=
  ⟨couponLe_total⟩

instance : IsTrans (Coupon × ℚ) couponLe :=
  ⟨couponLe_trans⟩

theorem lookup_assocSet_self {β : Type} (k : String) (v : β) :
    ∀ (l : List (String × β)), (assocSet k v l).lookup k = some v
  | [] => by simp [assocSet, List.lookup]
  | (k2, v2) :: rest => by
    by_cases h : k2 = k
    · simp [assocSet, h, List.lookup]
    · have hb : (k == k2) = false := beq_eq_false_iff_ne.mpr (Ne.symm h)
      simp [assocSet, h, List.lookup, hb, lookup_assocSet_self k v rest]

theorem lookup_assocSet_other {β : Type} (k : String) (v : β) (k2 : String) (hne : k2 ≠ k) :
    ∀ (l : List (String × β)), (assocSet k v l).lookup k2 = l.lookup k2
  | [] => by
    have hb : (k2 == k) = false := beq_eq_false_iff_ne.mpr hne
    simp [assocSet, List.lookup, hb]
  | (k3, v3) :: rest => by
    by_cases h : k3 = k
    · subst h
      have hb : (k2 == k3) = false := beq_eq_false_iff_ne.mpr hne
      simp [assocSet, List.lookup, hb]
    · simp [assocSet, h, List.lookup, lookup_assocSet_other k v k2 hne rest]

theorem usageCount_incrementUsage_self (userUsage : UsageMap) (userId couponCode : String) :
    usageCount (incrementUsage userId couponCode userUsage) userId couponCode =
      usageCount userUsage userId couponCode + 1 := by
  unfold usageCount incrementUsage
  rw [lookup_assocSet_self, Option.getD_some, lookup_assocSet_self, Option.getD_some]

theorem usageCount_incrementUsage_other (userUsage : UsageMap) (userId couponCode u c : String)
    (h : ¬(u = userId ∧ c = couponCode)) :
    usageCount (incrementUsage userId couponCode userUsage) u c =
      usageCount userUsage u c := by
  unfold usageCount incrementUsage
  by_cases hu : u = userId
  · subst hu
    have hc : c ≠ couponCode := fun hc => h ⟨rfl, hc⟩
    rw [lookup_assocSet_self, Option.getD_some, lookup_assocSet_other _ _ _ hc]
  · rw [lookup_assocSet_other _ _ _ hu]

theorem lookup_incrementUsage_isSome (userUsage : UsageMap) (userId couponCode : String) :
    ((incrementUsage userId couponCode userUsage).lookup userId).isSome = true := by
  unfold incrementUsage
  rw [lookup_assocSet_self]
  rfl

theorem usageCount_incrementUsage_mono (userUsage : UsageMap) (userId couponCode u c : String) :
    usageCount userUsage u c ≤ usageCount (incrementUsage userId couponCode userUsage) u c := by
  by_cases h : u = userId ∧ c = couponCode
  · rcases h with ⟨hu, hc⟩
    subst hu; subst hc
    rw [usageCount_incrementUsage_self]
    linarith
  · rw [usageCount_incrementUsage_other _ _ _ _ _ h]

theorem foldl_add_nonneg (f : CartItem → ℚ) :
    ∀ (l : List CartItem), (∀ item ∈ l, 0 ≤ f item) → ∀ (init : ℚ), 0 ≤ init →
      0 ≤ l.foldl (fun sum item => sum + f item) init
  | [], _, _, h => h
  | item :: rest, hf, init, h =>
    foldl_add_nonneg f rest (fun i hi => hf i (List.mem_cons_of_mem _ hi)) (init + f item)
      (by have := hf item (List.mem_cons_self _ _); linarith)

theorem selectBest_success (coupons : List Coupon) (userContext : UserContext)
    (cart : Cart) (now : ℤ) (userUsage : UsageMap)
    (out : SelectResult × List Coupon × UsageMap)
    (h : selectBest coupons userContext cart now userUsage = out)
    (w : Coupon) (hw : out.1.coupon = some w) :
    out.2.1 = coupons ∧
    out.2.2 = incrementUsage userContext.userId w.code userUsage ∧
    out.1.discount = calculateDiscount w cart ∧
    w ∈ routeSurvivors coupons userContext cart now userUsage := by
  simp only [selectBest] at h
  split at h
  · subst h
    cases hw
  · rename_i hne
    split at h
    · subst h
      cases hw
    · rename_i best rest hsort
      subst h
      simp only at hw
      injection hw with hww
      have hmem : best ∈ (routeSurvivors coupons userContext cart now userUsage).map
          (fun coupon => (coupon, calculateDiscount coupon cart)) := by
        rw [← List.mem_insertionSort couponLe, hsort]
        exact List.mem_cons_self best rest
      rcases List.mem_map.mp hmem with ⟨c, hc, hcw⟩
      refine ⟨rfl, ?_, ?_, ?_⟩
      · rw [hww]
      · rw [← hww, ← hcw]
      · rw [← hww, ← hcw]
        exact hc

theorem selectBest_no_winner (coupons : List Coupon) (userContext : UserContext)
    (cart : Cart) (now : ℤ) (userUsage : UsageMap)
    (out : SelectResult × List Coupon × UsageMap)
    (h : selectBest coupons userContext cart now userUsage = out)
    (hw : out.1.coupon = none) :
    out = ({ coupon := none, discount := 0 }, coupons, userUsage) := by
  simp only [selectBest] at h
  split at h
  · exact h.symm
  · split at h
    · exact h.symm
    · subst h
      cases hw

theorem cartValue_nonneg (cart : Cart)
    (hitems : ∀ item ∈ cart.items, 0 ≤ item.unitPrice * item.quantity) :
    0 ≤ cartValue cart :=
  foldl_add_nonneg (fun item => item.unitPrice * item.quantity) cart.items hitems 0 le_rfl

/-- Claim C3: for every coupon that passed catalog validation (positive
discount magnitude, positive cap when present) and every cart whose items
have non-negative price-times-quantity, `calculateDiscount` lands in
`[0, cartValue]`; a FLAT coupon larger than the cart discounts exactly the
cart value, and a zero-item cart yields 0. -/
theorem claim3_discount_bounds (coupon : Coupon) (cart : Cart)
    (hdv : 0 < coupon.discountValue)
    (hcap : ∀ cap, coupon.maxDiscountAmount = some cap → 0 < cap)
    (hitems : ∀ item ∈ cart.items, 0 ≤ item.unitPrice * item.quantity) :
    0 ≤ calculateDiscount coupon cart ∧
    calculateDiscount coupon cart ≤ cartValue cart ∧
    (coupon.discountType = "FLAT" → cartValue cart < coupon.discountValue →
      calculateDiscount coupon cart = cartValue cart) ∧
    calculateDiscount coupon { items := [] } = 0 := by
  have hcv : 0 ≤ cartValue cart := cartValue_nonneg cart hitems
  have hraw : ∀ cv : ℚ, 0 ≤ cv → 0 ≤
      (if coupon.discountType = "FLAT" then coupon.discountValue
       else if coupon.discountType = "PERCENT" then
         match coupon.maxDiscountAmount with
         | some cap => min (cv * coupon.discountValue / 100) cap
         | none => cv * coupon.discountValue / 100
       else 0) := by
    intro cv hcvn
    by_cases hf : coupon.discountType = "FLAT"
    · simp [hf]; linarith
    · by_cases hp : coupon.discountType = "PERCENT"
      · rcases hm : coupon.maxDiscountAmount with _ | cap
        · simp [hf, hp, hm]
          positivity
        · simp [hf, hp, hm]
          constructor
          · positivity
          · exact (hcap cap hm).le
      · simp [hf, hp]
  refine ⟨?_, ?_, ?_, ?_⟩
  · rw [calculateDiscount]
    exact le_min (hraw (cartValue cart) hcv) hcv
  · rw [calculateDiscount]
    exact min_le_right _ _
  · intro hf hlt
    rw [calculateDiscount]
    rw [if_pos hf]
    exact min_eq_right hlt.le
  · rw [calculateDiscount]
    have h0 : cartValue { items := [] } = (0 : ℚ) := rfl
    rw [h0]
    exact min_eq_right (hraw 0 le_rfl)

/-- Claim C4: for every PERCENT coupon, `calculateDiscount` is exactly
`min(cartValue * pct / 100, cap, cartValue)` when a cap is present and
`min(cartValue * pct / 100, cartValue)` when it is absent. -/
theorem claim4_percent_formula (coupon : Coupon) (cart : Cart)
    (hp : coupon.discountType = "PERCENT") :
    (∀ cap, coupon.maxDiscountAmount = some cap →
      calculateDiscount coupon cart =
        min (min (cartValue cart * coupon.discountValue / 100) cap) (cartValue cart)) ∧
    (coupon.maxDiscountAmount = none →
      calculateDiscount coupon cart =
        min (cartValue cart * coupon.discountValue / 100) (cartValue cart)) := by
  have hf : coupon.discountType ≠ "FLAT" := by
    rw [hp]; decide
  constructor
  · intro cap hm
    rw [calculateDiscount, if_neg hf, if_pos hp]
    rw [hm]
  · intro hm
    rw [calculateDiscount, if_neg hf, if_pos hp]
    rw [hm]

/-- Claim C5: when no coupon survives the validity, usage and eligibility
filters, `POST /coupons/best` answers `(null, 0)` and leaves the usage store
and the catalog untouched. -/
theorem claim5_empty_no_mutation (coupons : List Coupon) (userContext : UserContext)
    (cart : Cart) (now : ℤ) (userUsage : UsageMap)
    (h : routeSurvivors coupons userContext cart now userUsage = []) :
    selectBest coupons userContext cart now userUsage =
      ({ coupon := none, discount := 0 }, coupons, userUsage) := by
  simp [selectBest, h]

/-- Claim C9 (amended core): `CouponService.filterActiveCoupons` keeps
exactly the coupons whose inclusive validity window contains `now`; its
usage-limit test is dead code, so the result is invariant under arbitrary
rewrites of every `usageLimitPerUser` field (and the function consults no
usage counts at all — it does not even receive the usage store). -/
theorem claim9_filter_active (coupons : List Coupon) (userContext : UserContext) (now : ℤ) :
    filterActiveCoupons coupons userContext now =
      coupons.filter (fun coupon =>
        decide (coupon.startDate ≤ now) && decide (now ≤ coupon.endDate)) ∧
    (∀ coupon, coupon ∈ filterActiveCoupons coupons userContext now ↔
      coupon ∈ coupons ∧ coupon.startDate ≤ now ∧ now ≤ coupon.endDate) ∧
    ∀ lim, filterActiveCoupons (coupons.map fun coupon =>
        { coupon with usageLimitPerUser := lim }) userContext now =
      (filterActiveCoupons coupons userContext now).map fun coupon =>
        { coupon with usageLimitPerUser := lim } := by
  have hpred : ∀ (c : Coupon),
      (if decide (c.startDate ≤ now) && decide (now ≤ c.endDate) then
        match c.usageLimitPerUser with
        | some _ => true
        | none => true
      else false) =
      (decide (c.startDate ≤ now) && decide (now ≤ c.endDate)) := by
    intro c
    by_cases hd : (decide (c.startDate ≤ now) && decide (now ≤ c.endDate)) = true
    · rcases hl : c.usageLimitPerUser <;> simp [hd, hl]
    · simp only [Bool.not_eq_true] at hd
      simp [hd]
  have hmain : ∀ (l : List Coupon), filterActiveCoupons l userContext now =
      l.filter (fun coupon =>
        decide (coupon.startDate ≤ now) && decide (now ≤ coupon.endDate)) := by
    intro l
    unfold filterActiveCoupons
    exact List.filter_congr fun c _ => hpred c
  refine ⟨hmain coupons, ?_, ?_⟩
  · intro c
    rw [hmain coupons, List.mem_filter]
    simp
  · intro lim
    rw [hmain, hmain, List.filter_map]
    congr 1

/-- Claim C2 (amended): in-catalog coupons carrying a non-null usage limit L
pass the `POST /coupons/best` usage filter exactly when the current usage
count is strictly below L, and no-limit coupons always pass; but a coupon
SUBMITTED with `usageLimitPerUser: 0` is coerced to no-limit by the
constructor (`data.usageLimitPerUser || null`), so it is always kept, not
never kept. -/
theorem claim2_usage_filter_amended (userUsage : UsageMap) (userContext : UserContext)
    (now : ℤ) (coupon : Coupon) (hs : coupon.startDate ≤ now) (he : now ≤ coupon.endDate) :
    (∀ L, coupon.usageLimitPerUser = some L →
      (activeFilter userUsage userContext now coupon = true ↔
        usageCount userUsage userContext.userId coupon.code < L)) ∧
    (coupon.usageLimitPerUser = none →
      activeFilter userUsage userContext now coupon = true) ∧
    ∀ data : CouponData, data.usageLimitPerUser = some 0 →
      (mkCoupon data).usageLimitPerUser = none := by
  refine ⟨?_, ?_, ?_⟩
  · intro L hL
    simp [activeFilter, hs, he, hL, not_le]
  · intro hN
    simp [activeFilter, hs, he, hN]
  · intro data hd
    simp [mkCoupon, jsOrNull, hd]

/-- Claim C6: a successful selection increments the usage count of
`(userId, winner.code)` by exactly one, creating the per-user map entry when
absent, and `POST /coupons/best` — the only operation that touches the usage
store — never decreases any usage count. -/
theorem claim6_commit_increment (coupons : List Coupon) (userContext : UserContext)
    (cart : Cart) (now : ℤ) (userUsage : UsageMap)
    (out : SelectResult × List Coupon × UsageMap)
    (h : selectBest coupons userContext cart now userUsage = out) :
    (∀ w, out.1.coupon = some w →
      usageCount out.2.2 userContext.userId w.code =
        usageCount userUsage userContext.userId w.code + 1 ∧
      (out.2.2.lookup userContext.userId).isSome = true) ∧
    ∀ u c, usageCount userUsage u c ≤ usageCount out.2.2 u c := by
  constructor
  · intro w hw
    obtain ⟨-, husage, -, -⟩ :=
      selectBest_success coupons userContext cart now userUsage out h w hw
    rw [husage]
    exact ⟨usageCount_incrementUsage_self _ _ _, lookup_incrementUsage_isSome _ _ _⟩
  · intro u c
    rcases hw : out.1.coupon with _ | w
    · have hout := selectBest_no_winner coupons userContext cart now userUsage out h hw
      rw [hout]
    · obtain ⟨-, husage, -, -⟩ :=
        selectBest_success coupons userContext cart now userUsage out h w hw
      rw [husage]
      exact usageCount_incrementUsage_mono _ _ _ _ _

/-- Claim C10: on a successful selection the only state change is the usage
count of the single pair (requesting userId, winning code); every other
usage entry and every catalog record is unchanged. -/
theorem claim10_frame (coupons : List Coupon) (userContext : UserContext)
    (cart : Cart) (now : ℤ) (userUsage : UsageMap)
    (out : SelectResult × List Coupon × UsageMap)
    (h : selectBest coupons userContext cart now userUsage = out)
    (w : Coupon) (hw : out.1.coupon = some w) :
    out.2.1 = coupons ∧
    ∀ u c, ¬(u = userContext.userId ∧ c = w.code) →
      usageCount out.2.2 u c = usageCount userUsage u c := by
  obtain ⟨hcat, husage, -, -⟩ :=
    selectBest_success coupons userContext cart now userUsage out h w hw
  refine ⟨hcat, fun u c hne => ?_⟩
  rw [husage]
  exact usageCount_incrementUsage_other _ _ _ _ _ hne

/-- Claim C2, counterexample: a coupon submitted with redemption limit 0 is
stored with a null limit, and the usage filter keeps it for a user who has
already redeemed it five times — the claim says it is never kept. -/
theorem claim2_counterexample :
    cx2Data.usageLimitPerUser = some 0 ∧
    (mkCoupon cx2Data).usageLimitPerUser = none ∧
    usageCount cx2Usage "u1" "LIMIT0" = 5 ∧
    activeFilter cx2Usage cx2User 50 (mkCoupon cx2Data) = true := by
  decide

theorem contains_true_iff (l : List String) (a : String) : l.contains a = true ↔ a ∈ l := by
  simp

theorem categoryHit_iff (cats : List String) (items : List CartItem) :
    categoryHit (cats.map jsToLowerCase) items = true ↔
      ∃ item ∈ items, ∃ cat ∈ cats, jsToLowerCase item.category = jsToLowerCase cat := by
  unfold categoryHit
  rw [List.any_eq_true]
  constructor
  · rintro ⟨lc, hlc, hc⟩
    rcases List.mem_map.mp hlc with ⟨item, hitem, rfl⟩
    rcases List.mem_map.mp (contains_true_iff _ _ |>.mp hc) with ⟨cat, hcat, hcl⟩
    exact ⟨item, hitem, cat, hcat, hcl.symm⟩
  · rintro ⟨item, hitem, cat, hcat, heq⟩
    refine ⟨jsToLowerCase item.category, List.mem_map.mpr ⟨item, hitem, rfl⟩, ?_⟩
    exact contains_true_iff _ _ |>.mpr (List.mem_map.mpr ⟨cat, hcat, heq.symm⟩)

/-- Claim C8: the constructor lowercases `applicableCategories` and
`excludedCategories` once at creation, and against such a coupon the
category-membership test of the cart-side eligibility check succeeds exactly
when some cart item category equals some rule category after lowercasing
both — category matching is case-insensitive. -/
theorem claim8_category_case_insensitive (data : CouponData) (items : List CartItem) :
    (∀ cats, data.eligibility.applicableCategories = some cats →
      (mkCoupon data).eligibility.applicableCategories = some (cats.map jsToLowerCase) ∧
      (categoryHit (cats.map jsToLowerCase) items = true ↔
        ∃ item ∈ items, ∃ cat ∈ cats,
          jsToLowerCase item.category = jsToLowerCase cat)) ∧
    (∀ cats, data.eligibility.excludedCategories = some cats →
      (mkCoupon data).eligibility.excludedCategories = some (cats.map jsToLowerCase) ∧
      (categoryHit (cats.map jsToLowerCase) items = true ↔
        ∃ item ∈ items, ∃ cat ∈ cats,
          jsToLowerCase item.category = jsToLowerCase cat)) := by
  constructor
  · intro cats hcats
    refine ⟨?_, categoryHit_iff cats items⟩
    simp [mkCoupon, normalizeEligibility, hcats]
  · intro cats hcats
    refine ⟨?_, categoryHit_iff cats items⟩
    simp [mkCoupon, normalizeEligibility, hcats]

theorem widerSet_mono (o o2 : Option (List String)) (hw : widerSet o o2) (a : String)
    (h : optContains o a = true) :
    optContains o2 a = true := by
  unfold optContains at h ⊢
  rcases o2 with _ | t
  · rfl
  · rcases o with _ | s
    · exact False.elim hw
    · exact contains_true_iff t a |>.mpr (hw a (contains_true_iff s a |>.mp h))

theorem lowerMin_mono (o o2 : Option ℚ) (hw : lowerMin o o2) (v : ℚ)
    (h : optMinPass o v = true) :
    optMinPass o2 v = true := by
  unfold optMinPass at h ⊢
  rcases o2 with _ | m2
  · rfl
  · rcases o with _ | m
    · exact False.elim hw
    · simp only [Bool.not_eq_true', decide_eq_false_iff_not, not_lt] at h ⊢
      have hle : m2 ≤ m := hw
      linarith

theorem checkUserEligibility_mono (e e2 : Eligibility) (userContext : UserContext)
    (hr : relaxedEligibility e e2)
    (h : checkUserEligibility e userContext = true) :
    checkUserEligibility e2 userContext = true := by
  obtain ⟨h1, h2, h3, h4, h5, -, -, -, -⟩ := hr
  unfold checkUserEligibility at h ⊢
  simp only [Bool.and_eq_true] at h ⊢
  obtain ⟨⟨⟨⟨ht, hls⟩, hop⟩, hfo⟩, hco⟩ := h
  refine ⟨⟨⟨⟨widerSet_mono _ _ h1 _ ht, lowerMin_mono _ _ h2 _ hls⟩,
    lowerMin_mono _ _ h3 _ hop⟩, ?_⟩, widerSet_mono _ _ h5 _ hco⟩
  rw [h4]
  exact hfo

theorem widerSet_categoryHit_mono (o o2 : Option (List String)) (hw : widerSet o o2)
    (items : List CartItem)
    (h : optCategoryHit o items = true) :
    optCategoryHit o2 items = true := by
  unfold optCategoryHit at h ⊢
  rcases o2 with _ | t
  · rfl
  · rcases o with _ | s
    · exact False.elim hw
    · unfold categoryHit at h ⊢
      rw [List.any_eq_true] at h ⊢
      rcases h with ⟨lc, hlc, hc⟩
      exact ⟨lc, hlc, contains_true_iff t lc |>.mpr (hw lc (contains_true_iff s lc |>.mp hc))⟩

theorem checkCartEligibility_mono (e e2 : Eligibility) (cart : Cart)
    (hr : relaxedEligibility e e2)
    (h : checkCartEligibility e cart = true) :
    checkCartEligibility e2 cart = true := by
  obtain ⟨-, -, -, -, -, h6, h7, h8, h9⟩ := hr
  unfold checkCartEligibility at h ⊢
  simp only [Bool.and_eq_true] at h ⊢
  obtain ⟨⟨⟨hcv, hac⟩, hec⟩, hic⟩ := h
  refine ⟨⟨⟨lowerMin_mono _ _ h6 _ hcv, widerSet_categoryHit_mono _ _ h7 _ hac⟩, ?_⟩,
    lowerMin_mono _ _ h9 _ hic⟩
  rw [h8]
  exact hec

/-- Claim C7: eligibility is monotone per rule field — replacing any
allow-set by a superset (or dropping it) and lowering (or dropping) any
minimum threshold never turns an eligible coupon ineligible. -/
theorem claim7_eligibility_monotone (c c2 : Coupon) (userContext : UserContext) (cart : Cart)
    (hr : relaxedEligibility c.eligibility c2.eligibility)
    (h : checkEligibility c userContext cart = true) :
    checkEligibility c2 userContext cart = true := by
  unfold checkEligibility at h ⊢
  simp only [Bool.and_eq_true] at h ⊢
  exact ⟨checkUserEligibility_mono _ _ _ hr h.1, checkCartEligibility_mono _ _ _ hr h.2⟩

unseal Rat.add Rat.mul Rat.inv in
/-- Claim C1, counterexample: two surviving coupons with equal discount (100)
and equal end instant but codes `"a"` and `"B"`; `"B"` is byte/codepoint
smaller than `"a"`, yet the engine (which tie-breaks with `localeCompare`,
a locale-aware collation that puts lowercase letters before later-alphabet
uppercase letters) returns the coupon coded `"a"`. -/
theorem claim1_counterexample :
    findBestCoupon [cx1CouponA, cx1CouponB] cx1User cx1Cart 50 = some (cx1CouponA, 100) ∧
    cx1CouponA.code = "a" ∧ cx1CouponB.code = "B" ∧
    calculateDiscount cx1CouponB cx1Cart = 100 ∧
    cx1CouponB.endDate = cx1CouponA.endDate ∧
    cx1CouponB ∈ survivingCoupons [cx1CouponA, cx1CouponB] cx1User cx1Cart 50 ∧
    codepointLt "B" "a" = true := by
  decide

/-- Claim C1 (amended): the engine ranks surviving (coupon, discount) pairs
by discount descending, then end instant ascending, then coupon code
ascending in the `localeCompare` collation order (not byte/codepoint order),
and the returned winner is minimal in that order among all survivors. -/
theorem claim1_ranking_amended (coupons : List Coupon) (userContext : UserContext)
    (cart : Cart) (now : ℤ) (w : Coupon) (d : ℚ)
    (h : findBestCoupon coupons userContext cart now = some (w, d)) :
    d = calculateDiscount w cart ∧
    w ∈ survivingCoupons coupons userContext cart now ∧
    ∀ c ∈ survivingCoupons coupons userContext cart now,
      calculateDiscount c cart ≤ d ∧
      (calculateDiscount c cart = d → w.endDate ≤ c.endDate) ∧
      (calculateDiscount c cart = d → c.endDate = w.endDate →
        localeCompare w.code c.code ≠ Ordering.gt) := by
  simp only [findBestCoupon] at h
  split at h
  · cases h
  · rcases hsort : ((survivingCoupons coupons userContext cart now).map
        (fun coupon => (coupon, calculateDiscount coupon cart))).insertionSort couponLe
      with _ | ⟨best, rest⟩
    · rw [hsort] at h
      cases h
    · rw [hsort] at h
      simp only [List.head?_cons, Option.some_inj] at h
      subst h
      have hsorted : List.Sorted couponLe ((w, d) :: rest) := by
        rw [← hsort]
        exact List.sorted_insertionSort couponLe _
      have hminrest : ∀ b ∈ rest, couponLe (w, d) b :=
        List.rel_of_sorted_cons hsorted
      have hmem : (w, d) ∈ (survivingCoupons coupons userContext cart now).map
          (fun coupon => (coupon, calculateDiscount coupon cart)) := by
        rw [← List.mem_insertionSort couponLe, hsort]
        exact List.mem_cons_self _ _
      rcases List.mem_map.mp hmem with ⟨c0, hc0, hc0e⟩
      have hwd : w = c0 ∧ d = calculateDiscount c0 cart := by
        have h1 := congrArg Prod.fst hc0e
        have h2 := congrArg Prod.snd hc0e
        exact ⟨h1.symm, h2.symm⟩
      have hdw : d = calculateDiscount w cart := by
        rcases hwd with ⟨hw1, hd1⟩
        rw [hw1, hd1]
      refine ⟨hdw, ?_, ?_⟩
      · rcases hwd with ⟨hw1, -⟩
        rw [hw1]
        exact hc0
      · intro c hc
        have hcmem : (c, calculateDiscount c cart) ∈
            ((survivingCoupons coupons userContext cart now).map
              (fun coupon => (coupon, calculateDiscount coupon cart))).insertionSort couponLe := by
          rw [List.mem_insertionSort couponLe]
          exact List.mem_map.mpr ⟨c, hc, rfl⟩
        rw [hsort] at hcmem
        have hle : couponLe (w, d) (c, calculateDiscount c cart) := by
          rcases List.mem_cons.mp hcmem with heq | hin
          · rw [heq]
            exact couponLe_refl _
          · exact hminrest _ hin
        rw [couponLe] at hle
        rw [couponCmp_ne_gt] at hle
        simp only at hle
        constructor
        · rcases hle with hlt | ⟨heq, -⟩
          · exact hlt.le
          · exact heq.ge
        constructor
        · intro heqd
          rcases hle with hlt | ⟨-, hrest⟩
          · rw [heqd] at hlt
            exact absurd hlt (lt_irrefl d)
          · rcases hrest with hlt | ⟨heqe, -⟩
            · exact hlt.le
            · exact heqe.le
        · intro heqd heqe
          rcases hle with hlt | ⟨-, hrest⟩
          · rw [heqd] at hlt
            exact absurd hlt (lt_irrefl d)
          · rcases hrest with hlt | ⟨-, hcode⟩
            · rw [heqe] at hlt
              exact absurd hlt (lt_irrefl _)
            · exact hcode

unseal Rat.add Rat.mul Rat.inv in
/-- Witness for C1: the amended ranking theorem applied to the concrete
two-coupon tie catalog. -/
theorem claim1_ranking_witness :
    (100 : ℚ) = calculateDiscount cx1CouponA cx1Cart ∧
    cx1CouponA ∈ survivingCoupons [cx1CouponA, cx1CouponB] cx1User cx1Cart 50 ∧
    ∀ c ∈ survivingCoupons [cx1CouponA, cx1CouponB] cx1User cx1Cart 50,
      calculateDiscount c cx1Cart ≤ 100 ∧
      (calculateDiscount c cx1Cart = 100 → cx1CouponA.endDate ≤ c.endDate) ∧
      (calculateDiscount c cx1Cart = 100 → c.endDate = cx1CouponA.endDate →
        localeCompare cx1CouponA.code c.code ≠ Ordering.gt) :=
  claim1_ranking_amended [cx1CouponA, cx1CouponB] cx1User cx1Cart 50 cx1CouponA 100
    (by decide)

/-- Witness for C2: the amended usage-filter theorem applied to an in-window
coupon with limit 2 and one recorded use. -/
theorem claim2_usage_filter_witness :
    (∀ L, w2Coupon.usageLimitPerUser = some L →
      (activeFilter w2Usage w2User 50 w2Coupon = true ↔
        usageCount w2Usage w2User.userId w2Coupon.code < L)) ∧
    (w2Coupon.usageLimitPerUser = none →
      activeFilter w2Usage w2User 50 w2Coupon = true) ∧
    ∀ data : CouponData, data.usageLimitPerUser = some 0 →
      (mkCoupon data).usageLimitPerUser = none :=
  claim2_usage_filter_amended w2Usage w2User 50 w2Coupon (by decide) (by decide)

unseal Rat.add Rat.mul Rat.inv in
/-- Witness for C3: the discount-bounds theorem applied to a FLAT-100 coupon
against a 60-value cart. -/
theorem claim3_discount_bounds_witness :
    0 ≤ calculateDiscount w3Coupon w3Cart ∧
    calculateDiscount w3Coupon w3Cart ≤ cartValue w3Cart ∧
    (w3Coupon.discountType = "FLAT" → cartValue w3Cart < w3Coupon.discountValue →
      calculateDiscount w3Coupon w3Cart = cartValue w3Cart) ∧
    calculateDiscount w3Coupon { items := [] } = 0 :=
  claim3_discount_bounds w3Coupon w3Cart (by decide)
    (fun cap h => Option.noConfusion h) (by decide)

/-- Witness for C4: the PERCENT formula theorem applied to a capped 20
percent coupon. -/
theorem claim4_percent_formula_witness :
    (∀ cap, w4Coupon.maxDiscountAmount = some cap →
      calculateDiscount w4Coupon w4Cart =
        min (min (cartValue w4Cart * w4Coupon.discountValue / 100) cap) (cartValue w4Cart)) ∧
    (w4Coupon.maxDiscountAmount = none →
      calculateDiscount w4Coupon w4Cart =
        min (cartValue w4Cart * w4Coupon.discountValue / 100) (cartValue w4Cart)) :=
  claim4_percent_formula w4Coupon w4Cart (by decide)

/-- Witness for C5: an expired-only catalog yields the empty survivor set,
and selection answers (null, 0) leaving catalog and usage untouched. -/
theorem claim5_empty_no_mutation_witness :
    selectBest [w5Coupon] w5User { items := [] } 50 w5Usage =
      ({ coupon := none, discount := 0 }, [w5Coupon], w5Usage) :=
  claim5_empty_no_mutation [w5Coupon] w5User { items := [] } 50 w5Usage (by decide)

/-- Witness for C6: the commit theorem applied to a concrete successful
selection. -/
theorem claim6_commit_increment_witness :
    (∀ w, (selectBest [w6Coupon] w6User { items := [] } 50 []).1.coupon = some w →
      usageCount (selectBest [w6Coupon] w6User { items := [] } 50 []).2.2
          w6User.userId w.code =
        usageCount [] w6User.userId w.code + 1 ∧
      (((selectBest [w6Coupon] w6User { items := [] } 50 []).2.2.lookup
          w6User.userId)).isSome = true) ∧
    ∀ u c, usageCount [] u c ≤
      usageCount (selectBest [w6Coupon] w6User { items := [] } 50 []).2.2 u c :=
  claim6_commit_increment [w6Coupon] w6User { items := [] } 50 []
    (selectBest [w6Coupon] w6User { items := [] } 50 []) rfl

unseal Rat.add Rat.mul Rat.inv in
/-- Witness for C7: widening the tier set and category set and lowering the
spend and cart-value thresholds preserves eligibility on a concrete case. -/
theorem claim7_eligibility_monotone_witness :
    checkEligibility w7CouponB w7User w7Cart = true :=
  claim7_eligibility_monotone w7CouponA w7CouponB w7User w7Cart
    ⟨(by decide : ∀ x ∈ ["NEW"], x ∈ ["NEW", "GOLD"]),
      (by decide : (50 : ℚ) ≤ 100), trivial, rfl, trivial,
      (by decide : (10 : ℚ) ≤ 50),
      (by decide : ∀ x ∈ ["books"], x ∈ ["books", "toys"]), rfl, trivial⟩
    (by decide)

/-- Witness for C8: the case-insensitivity theorem applied to the
`["ELECTRONICS"]` versus `"electronics"` example from the specification. -/
theorem claim8_category_case_insensitive_witness :
    (∀ cats, w8Data.eligibility.applicableCategories = some cats →
      (mkCoupon w8Data).eligibility.applicableCategories = some (cats.map jsToLowerCase) ∧
      (categoryHit (cats.map jsToLowerCase) w8Items = true ↔
        ∃ item ∈ w8Items, ∃ cat ∈ cats,
          jsToLowerCase item.category = jsToLowerCase cat)) ∧
    (∀ cats, w8Data.eligibility.excludedCategories = some cats →
      (mkCoupon w8Data).eligibility.excludedCategories = some (cats.map jsToLowerCase) ∧
      (categoryHit (cats.map jsToLowerCase) w8Items = true ↔
        ∃ item ∈ w8Items, ∃ cat ∈ cats,
          jsToLowerCase item.category = jsToLowerCase cat)) :=
  claim8_category_case_insensitive w8Data w8Items

/-- Witness for C9: the filter characterization applied to a concrete
catalog with one in-window and one expired coupon. -/
theorem claim9_filter_active_witness :
    filterActiveCoupons [w9CouponA, w9CouponB] w9User 50 =
      [w9CouponA, w9CouponB].filter (fun coupon =>
        decide (coupon.startDate ≤ 50) && decide ((50 : ℤ) ≤ coupon.endDate)) ∧
    (∀ coupon, coupon ∈ filterActiveCoupons [w9CouponA, w9CouponB] w9User 50 ↔
      coupon ∈ [w9CouponA, w9CouponB] ∧ coupon.startDate ≤ 50 ∧ (50 : ℤ) ≤ coupon.endDate) ∧
    ∀ lim, filterActiveCoupons ([w9CouponA, w9CouponB].map fun coupon =>
        { coupon with usageLimitPerUser := lim }) w9User 50 =
      (filterActiveCoupons [w9CouponA, w9CouponB] w9User 50).map fun coupon =>
        { coupon with usageLimitPerUser := lim } :=
  claim9_filter_active [w9CouponA, w9CouponB] w9User 50

unseal Rat.add Rat.mul Rat.inv in
/-- Witness for C10: the frame theorem applied to a concrete successful
selection, with another user holding a prior count on the same code. -/
theorem claim10_frame_witness :
    (selectBest [w10Coupon] w10User { items := [] } 50 w10Usage).2.1 = [w10Coupon] ∧
    ∀ u c, ¬(u = w10User.userId ∧ c = w10Coupon.code) →
      usageCount (selectBest [w10Coupon] w10User { items := [] } 50 w10Usage).2.2 u c =
        usageCount w10Usage u c :=
  claim10_frame [w10Coupon] w10User { items := [] } 50 w10Usage
    (selectBest [w10Coupon] w10User { items := [] } 50 w10Usage) rfl
    w10Coupon (by decide)
